import Mathlib

/-!
# s3-angular: the static-website stack definition

A shallow embedding of `s3-angular/s3-angular.go`.

The program is a straight line of calls into the infrastructure SDK.  The SDK
is not part of the repository, and each of its constructors may refuse the
call (in Go: panic).  The SDK is therefore a parameter, `Sdk`, which says for
every constructor call whether it is accepted; an accepted call records the
construct it is asked for (id and props) in the stack under construction, a
refused call ends the program with a panic.  The theorems hold for every
`Sdk`; the concrete instance `awsSdk` writes down the checks the SDK is known
to make on the calls of this program and is used for the concrete runs.

* A Go `string` is a Lean `String`, `+` on strings is `++`.
* A `*T` field of an SDK props structure is an `Option T`; a field the source
  leaves out of a composite literal is `none` and the fields of the SDK
  structures that the source never sets are not listed.
* A construct handle (a Go interface value pointing at an SDK object) is a
  `Ref`: the path of the scope the construct was created in, and its id.
* A string the SDK hands back for an attribute of a construct (a hosted zone
  id, an ARN, ...) is a `Token` naming the construct and the attribute.
* A Go run-time panic ends the function with `panicked`, which carries the
  stack as far as it was built.
-/

namespace S3Angular

/-! ## Handles and attribute values -/

/-- Path of a construct in the construct tree: the ids from the root down. -/
abbrev Path := List String

/-- Handle on a construct: the scope it was created in and its id there. -/
structure Ref where
  scope : Path
  id : String
deriving DecidableEq, Repr

/-- Path of the construct a handle points at. -/
def Ref.path (r : Ref) : Path := r.scope ++ [r.id]

/-- A `*string` obtained from the SDK: either a plain string or an attribute
of a construct, which the SDK resolves at deployment. -/
inductive Token where
  | literal (s : String)
  | HostedZoneId (zone : Ref)
  | BucketDomainName (bucket : Ref)
  | ArnForObjects (bucket : Ref) (keyPattern : String)
  | CertificateArn (certificate : Ref)
  | DistributionId (distribution : Ref)
  | CloudFrontOriginAccessIdentityS3CanonicalUserId (identity : Ref)
deriving DecidableEq, Repr

/-- The accessor `zone.HostedZoneId()`. -/
def Ref.HostedZoneId (zone : Ref) : Token := Token.HostedZoneId zone

/-- The accessor `bucket.BucketDomainName()`. -/
def Ref.BucketDomainName (bucket : Ref) : Token := Token.BucketDomainName bucket

/-- The accessor `bucket.ArnForObjects(keyPattern)`. -/
def Ref.ArnForObjects (bucket : Ref) (keyPattern : String) : Token :=
  Token.ArnForObjects bucket keyPattern

/-- The accessor `certificate.CertificateArn()`. -/
def Ref.CertificateArn (certificate : Ref) : Token := Token.CertificateArn certificate

/-- The accessor `distribution.DistributionId()`. -/
def Ref.DistributionId (distribution : Ref) : Token := Token.DistributionId distribution

/-- The accessor `identity.CloudFrontOriginAccessIdentityS3CanonicalUserId()`. -/
def Ref.CloudFrontOriginAccessIdentityS3CanonicalUserId (identity : Ref) : Token :=
  Token.CloudFrontOriginAccessIdentityS3CanonicalUserId identity

/-- The accessor `construct.Node().Id()`: the id of the construct within its
scope, a plain string. -/
def Ref.NodeId (construct : Ref) : Token := Token.literal construct.id

/-! ## Props structures of the SDK, with the fields the source sets -/

/-- The structure `awscdk.Environment`. -/
structure Environment where
  Account : Option String := none
  Region : Option String := none
deriving DecidableEq, Repr

/-- The structure `awscdk.StackProps`; the source sets `Env` only. -/
structure StackProps where
  Env : Option Environment := none
deriving DecidableEq, Repr

/-- The structure `S3AngularStackProps` (source lines 19-23). -/
structure S3AngularStackProps where
  StackProps : StackProps := {}
  subDomain : String := ""
  domainName : String := ""
deriving DecidableEq, Repr

/-- The structure `awscloudfront.OriginAccessIdentityProps`. -/
structure OriginAccessIdentityProps where
  Comment : Option String := none
deriving DecidableEq, Repr

/-- The structure `awsroute53.HostedZoneProviderProps`. -/
structure HostedZoneProviderProps where
  DomainName : Option String := none
deriving DecidableEq, Repr

/-- The structure `awscdk.CfnOutputProps`. -/
structure CfnOutputProps where
  Value : Token
deriving DecidableEq, Repr

/-- The structure `awss3.BucketProps`. -/
structure BucketProps where
  BucketName : Option String := none
  WebsiteIndexDocument : Option String := none
  WebsiteErrorDocument : Option String := none
  PublicReadAccess : Option Bool := none
deriving DecidableEq, Repr

/-- The interface `awsiam.IPrincipal`: the constructor the source calls,
`awsiam.NewCanonicalUserPrincipal`, and the principal "*" that the SDK itself
uses when a bucket is given public read access. -/
inductive IPrincipal where
  | NewCanonicalUserPrincipal (canonicalUserId : Token)
  | AnyPrincipal
deriving DecidableEq, Repr

/-- The structure `awsiam.PolicyStatementProps`. -/
structure PolicyStatementProps where
  Actions : List String := []
  Resources : List Token := []
  Principals : List IPrincipal := []
deriving DecidableEq, Repr

/-- The structure `awscertificatemanager.DnsValidatedCertificateProps`. -/
structure DnsValidatedCertificateProps where
  DomainName : Option String := none
  HostedZone : Ref
  Region : Option String := none
deriving DecidableEq, Repr

/-- The enumeration `awscloudfront.SSLMethod`. -/
inductive SSLMethod where
  | SNI
  | VIP
deriving DecidableEq, Repr

/-- The enumeration `awscloudfront.SecurityPolicyProtocol`. -/
inductive SecurityPolicyProtocol where
  | SSL_V3
  | TLS_V1
  | TLS_V1_2016
  | TLS_V1_1_2016
  | TLS_V1_2_2018
  | TLS_V1_2_2019
  | TLS_V1_2_2021
deriving DecidableEq, Repr

/-- The structure `awscloudfront.ViewerCertificateOptions`. -/
structure ViewerCertificateOptions where
  SslMethod : Option SSLMethod := none
  SecurityPolicy : Option SecurityPolicyProtocol := none
  Aliases : List String := []
deriving DecidableEq, Repr

/-- The value returned by `awscloudfront.ViewerCertificate_FromAcmCertificate`:
the certificate and the options it was called with. -/
structure ViewerCertificate where
  certificate : Ref
  options : ViewerCertificateOptions
deriving DecidableEq, Repr

/-- The function `awscloudfront.ViewerCertificate_FromAcmCertificate`. -/
def ViewerCertificate_FromAcmCertificate (certificate : Ref)
    (options : ViewerCertificateOptions) : ViewerCertificate :=
  { certificate := certificate, options := options }

/-- An HTTP request method. -/
inductive HttpMethod where
  | DELETE
  | GET
  | HEAD
  | OPTIONS
  | PATCH
  | POST
  | PUT
deriving DecidableEq, Repr

/-- The enumeration `awscloudfront.CloudFrontAllowedMethods`. -/
inductive CloudFrontAllowedMethods where
  | GET_HEAD
  | GET_HEAD_OPTIONS
  | ALL
deriving DecidableEq, Repr

/-- Modelled from the spec: the enumeration is declared by the SDK, outside
the repository; the spec reads the value the source uses as "allowing
GET/HEAD/OPTIONS", and the other two values are read by their names. -/
def CloudFrontAllowedMethods.methods : CloudFrontAllowedMethods → List HttpMethod
  | .GET_HEAD => [.GET, .HEAD]
  | .GET_HEAD_OPTIONS => [.GET, .HEAD, .OPTIONS]
  | .ALL => [.DELETE, .GET, .HEAD, .OPTIONS, .PATCH, .POST, .PUT]

/-- The structure `awscloudfront.S3OriginConfig`. -/
structure S3OriginConfig where
  S3BucketSource : Ref
  OriginAccessIdentity : Option Ref := none
deriving DecidableEq, Repr

/-- The structure `awscloudfront.Behavior`. -/
structure Behavior where
  IsDefaultBehavior : Option Bool := none
  Compress : Option Bool := none
  AllowedMethods : Option CloudFrontAllowedMethods := none
deriving DecidableEq, Repr

/-- The structure `awscloudfront.SourceConfiguration`. -/
structure SourceConfiguration where
  S3OriginSource : Option S3OriginConfig := none
  Behaviors : List Behavior := []
deriving DecidableEq, Repr

/-- The structure `awscloudfront.CloudFrontWebDistributionProps`. -/
structure CloudFrontWebDistributionProps where
  ViewerCertificate : Option ViewerCertificate := none
  OriginConfigs : List SourceConfiguration := []
deriving DecidableEq, Repr

/-- The value returned by `awsroute53targets.NewCloudFrontTarget`. -/
structure CloudFrontTarget where
  distribution : Ref
deriving DecidableEq, Repr

/-- The function `awsroute53targets.NewCloudFrontTarget`. -/
def NewCloudFrontTarget (distribution : Ref) : CloudFrontTarget :=
  { distribution := distribution }

/-- The value returned by `awsroute53.AddressRecordTarget_FromAlias`. -/
inductive RecordTarget where
  | FromAlias (aliasTarget : CloudFrontTarget)
deriving DecidableEq, Repr

/-- The function `awsroute53.AddressRecordTarget_FromAlias`. -/
def AddressRecordTarget_FromAlias (aliasTarget : CloudFrontTarget) : RecordTarget :=
  RecordTarget.FromAlias aliasTarget

/-- The structure `awsroute53.ARecordProps`. -/
structure ARecordProps where
  RecordName : Option String := none
  Target : RecordTarget
  Zone : Ref
deriving DecidableEq, Repr

/-- The structure `awss3assets.AssetOptions`; the source sets no field. -/
structure AssetOptions where
deriving DecidableEq, Repr

/-- The interface `awss3deployment.ISource`, with the one constructor the
source calls, `awss3deployment.Source_Asset`. -/
inductive ISource where
  | Source_Asset (path : String) (options : AssetOptions)
deriving DecidableEq, Repr

/-- The structure `awss3deployment.BucketDeploymentProps`. -/
structure BucketDeploymentProps where
  Sources : List ISource := []
  DestinationBucket : Ref
  Distribution : Option Ref := none
  DistributionPaths : List String := []
deriving DecidableEq, Repr

/-! ## The stack under construction -/

/-- What a node of the construct tree is: the SDK constructor that made it and
the props it was given. -/
inductive Construct where
  | OriginAccessIdentity (props : OriginAccessIdentityProps)
  | HostedZone (props : HostedZoneProviderProps)
  | CfnOutput (props : CfnOutputProps)
  | Bucket (props : BucketProps)
  | DnsValidatedCertificate (props : DnsValidatedCertificateProps)
  | CloudFrontWebDistribution (props : CloudFrontWebDistributionProps)
  | ARecord (props : ARecordProps)
  | BucketDeployment (props : BucketDeploymentProps)
deriving DecidableEq, Repr

/-- A child of the stack: its id and what it is. -/
structure Node where
  id : String
  construct : Construct
deriving DecidableEq, Repr

/-- The stack: where it hangs, the props `awscdk.NewStack` received, the
constructs created with the stack as scope (in creation order), and the
statements of the resource policies of its buckets (with the bucket each
belongs to, in the order they were added). -/
structure Stack where
  scope : Path
  id : String
  props : StackProps
  children : List Node := []
  resourcePolicy : List (Ref × PolicyStatementProps) := []
deriving DecidableEq, Repr

/-- Path of the stack in the construct tree. -/
def Stack.path (stack : Stack) : Path := stack.scope ++ [stack.id]

/-- Registers a construct under the stack and hands back its handle. -/
def Stack.add (stack : Stack) (id : String) (c : Construct) : Ref × Stack :=
  ({ scope := stack.path, id := id },
   { stack with children := stack.children ++ [{ id := id, construct := c }] })

/-! ## The SDK -/

/-- The SDK together with the machine it runs on, as far as the program
depends on it: which calls it accepts.  A call that is not accepted panics.

* `NewStack scope id props`: the call `awscdk.NewStack`.
* `construct stack id c`: the constructor call that creates the construct `c`
  under the id `id` in the stack, the stack being in the given state.
* `AddToResourcePolicy stack bucket statement`: the method call of that name.
* `Synth children`: the call `app.Synth`, with the stacks under the app.

The helper calls whose arguments are constants and handles only
(`jsii.String`, `NewPolicyStatement`, `ViewerCertificate_FromAcmCertificate`,
`NewCloudFrontTarget`, `AddressRecordTarget_FromAlias`, `Source_Asset` and the
attribute accessors) do not depend on the input of the program and are
total. -/
structure Sdk where
  NewStack : Path → String → StackProps → Bool
  construct : Stack → String → Construct → Bool
  AddToResourcePolicy : Stack → Ref → PolicyStatementProps → Bool
  Synth : List Stack → Bool

/-- The constructor call for `c` under `id`: recorded when the SDK accepts
it, `none` (a panic) otherwise. -/
def Stack.construct (sdk : Sdk) (stack : Stack) (id : String) (c : Construct) :
    Option (Ref × Stack) :=
  if sdk.construct stack id c then some (stack.add id c) else none

/-- The function `awscdk.NewStack`. -/
def NewStack (sdk : Sdk) (scope : Path) (id : String) (props : StackProps) : Option Stack :=
  if sdk.NewStack scope id props then some { scope := scope, id := id, props := props }
  else none

/-- The function `awscloudfront.NewOriginAccessIdentity`. -/
def NewOriginAccessIdentity (sdk : Sdk) (stack : Stack) (id : String)
    (props : OriginAccessIdentityProps) : Option (Ref × Stack) :=
  stack.construct sdk id (.OriginAccessIdentity props)

/-- The function `awsroute53.HostedZone_FromLookup`. -/
def HostedZone_FromLookup (sdk : Sdk) (stack : Stack) (id : String)
    (props : HostedZoneProviderProps) : Option (Ref × Stack) :=
  stack.construct sdk id (.HostedZone props)

/-- The function `awscdk.NewCfnOutput`. -/
def NewCfnOutput (sdk : Sdk) (stack : Stack) (id : String) (props : CfnOutputProps) :
    Option (Ref × Stack) :=
  stack.construct sdk id (.CfnOutput props)

/-- The statement the SDK puts into the policy of a bucket that is created
with public read access: anybody may get every object. -/
def publicReadStatement (bucket : Ref) : PolicyStatementProps :=
  { Actions := ["s3:GetObject"]
    Resources := [bucket.ArnForObjects "*"]
    Principals := [.AnyPrincipal] }

/-- The function `awss3.NewBucket`.  With `PublicReadAccess` set the SDK adds
the public-read statement to the policy of the new bucket. -/
def NewBucket (sdk : Sdk) (stack : Stack) (id : String) (props : BucketProps) :
    Option (Ref × Stack) :=
  (stack.construct sdk id (.Bucket props)).map fun (bucket, stack) =>
    if props.PublicReadAccess = some true then
      (bucket,
        { stack with
          resourcePolicy := stack.resourcePolicy ++ [(bucket, publicReadStatement bucket)] })
    else (bucket, stack)

/-- The function `awsiam.NewPolicyStatement`. -/
def NewPolicyStatement (props : PolicyStatementProps) : PolicyStatementProps := props

/-- The method `bucket.AddToResourcePolicy`. -/
def AddToResourcePolicy (sdk : Sdk) (stack : Stack) (bucket : Ref)
    (statement : PolicyStatementProps) : Option Stack :=
  if sdk.AddToResourcePolicy stack bucket statement then
    some { stack with resourcePolicy := stack.resourcePolicy ++ [(bucket, statement)] }
  else none

/-- The function `awscertificatemanager.NewDnsValidatedCertificate`. -/
def NewDnsValidatedCertificate (sdk : Sdk) (stack : Stack) (id : String)
    (props : DnsValidatedCertificateProps) : Option (Ref × Stack) :=
  stack.construct sdk id (.DnsValidatedCertificate props)

/-- The function `awscloudfront.NewCloudFrontWebDistribution`. -/
def NewCloudFrontWebDistribution (sdk : Sdk) (stack : Stack) (id : String)
    (props : CloudFrontWebDistributionProps) : Option (Ref × Stack) :=
  stack.construct sdk id (.CloudFrontWebDistribution props)

/-- The function `awsroute53.NewARecord`. -/
def NewARecord (sdk : Sdk) (stack : Stack) (id : String) (props : ARecordProps) :
    Option (Ref × Stack) :=
  stack.construct sdk id (.ARecord props)

/-- The function `awss3deployment.NewBucketDeployment`. -/
def NewBucketDeployment (sdk : Sdk) (stack : Stack) (id : String)
    (props : BucketDeploymentProps) : Option (Ref × Stack) :=
  stack.construct sdk id (.BucketDeployment props)

/-! ## `NewS3AngularStack` -/

/-- A Go run-time panic: a nil pointer dereference, a failed type assertion
on a context value, or a panic raised by the SDK in the call that creates the
construct of the given id. -/
inductive Panic where
  | nilPointerDereference
  | interfaceConversion (key : String)
  | sdk (id : String)
deriving DecidableEq, Repr

/-- How a call of `NewS3AngularStack` ends: it returns the stack, or it
panics, leaving the stack as far as it was built (none when `awscdk.NewStack`
itself panicked). -/
inductive Outcome where
  | returned (stack : Stack)
  | panicked (p : Panic) (built : Option Stack)
deriving DecidableEq, Repr

/-- The local `domain` of `NewS3AngularStack` (source line 33). -/
def domain (props : S3AngularStackProps) : String :=
  props.subDomain ++ "." ++ props.domainName

/-- The function `NewS3AngularStack` (source lines 25-128).  Every SDK call
is followed by the branch taken when the SDK panics.  The first read through
`props` is on line 33, where a nil `props` panics; `props` is not assigned
afterwards, so the later reads cannot. -/
def NewS3AngularStack (sdk : Sdk) (scope : Path) (id : String)
    (props : Option S3AngularStackProps) : Outcome :=
  let sprops : StackProps :=
    match props with
    | some p => p.StackProps
    | none => {}
  match NewStack sdk scope id sprops with
  | none => .panicked (.sdk id) none
  | some stack =>
  match props with
  | none => .panicked .nilPointerDereference (some stack)
  | some props =>
  let domain := domain props
  match NewOriginAccessIdentity sdk stack "MyOriginAccessIdentity"
      { Comment := some ("OAI for " ++ id) } with
  | none => .panicked (.sdk "MyOriginAccessIdentity") (some stack)
  | some (cloudfrontOAI, stack) =>
  match HostedZone_FromLookup sdk stack "MyHostedZone"
      { DomainName := some props.domainName } with
  | none => .panicked (.sdk "MyHostedZone") (some stack)
  | some (zone, stack) =>
  match NewCfnOutput sdk stack "HostedZoneId" { Value := zone.HostedZoneId } with
  | none => .panicked (.sdk "HostedZoneId") (some stack)
  | some (_, stack) =>
  match NewBucket sdk stack "MyS3Bucket"
      { BucketName := some props.domainName
        WebsiteIndexDocument := some "index.html"
        WebsiteErrorDocument := some "error.html"
        PublicReadAccess := some true } with
  | none => .panicked (.sdk "MyS3Bucket") (some stack)
  | some (bucket, stack) =>
  match AddToResourcePolicy sdk stack bucket
      (NewPolicyStatement
        { Actions := ["s3:GetObject"]
          Resources := [bucket.ArnForObjects "*"]
          Principals :=
            [.NewCanonicalUserPrincipal
              cloudfrontOAI.CloudFrontOriginAccessIdentityS3CanonicalUserId] }) with
  | none => .panicked (.sdk "MyS3Bucket") (some stack)
  | some stack =>
  match NewCfnOutput sdk stack "MyBucketName" { Value := bucket.BucketDomainName } with
  | none => .panicked (.sdk "MyBucketName") (some stack)
  | some (_, stack) =>
  match NewDnsValidatedCertificate sdk stack "MySiteCertificate"
      { DomainName := some domain
        HostedZone := zone
        Region := some "us-east-1" } with
  | none => .panicked (.sdk "MySiteCertificate") (some stack)
  | some (certificateArn, stack) =>
  match NewCfnOutput sdk stack "Certificate" { Value := certificateArn.CertificateArn } with
  | none => .panicked (.sdk "Certificate") (some stack)
  | some (_, stack) =>
  let viewerCertificate :=
    ViewerCertificate_FromAcmCertificate certificateArn
      { SslMethod := some .SNI
        SecurityPolicy := some .TLS_V1_1_2016
        Aliases := [domain] }
  match NewCloudFrontWebDistribution sdk stack "MyCloudFrontDistribution"
      { ViewerCertificate := some viewerCertificate
        OriginConfigs :=
          [{ S3OriginSource :=
               some { S3BucketSource := bucket, OriginAccessIdentity := some cloudfrontOAI }
             Behaviors :=
               [{ IsDefaultBehavior := some true
                  Compress := some true
                  AllowedMethods := some .GET_HEAD_OPTIONS }] }] } with
  | none => .panicked (.sdk "MyCloudFrontDistribution") (some stack)
  | some (distribution, stack) =>
  match NewCfnOutput sdk stack "CloudFrontWebDistributionId"
      { Value := distribution.DistributionId } with
  | none => .panicked (.sdk "CloudFrontWebDistributionId") (some stack)
  | some (_, stack) =>
  match NewARecord sdk stack "MySiteAliasRecord"
      { RecordName := some domain
        Target := AddressRecordTarget_FromAlias (NewCloudFrontTarget distribution)
        Zone := zone } with
  | none => .panicked (.sdk "MySiteAliasRecord") (some stack)
  | some (_, stack) =>
  match NewBucketDeployment sdk stack "MyS3BucketDeployment"
      { Sources := [.Source_Asset "./simple-angular-app/dist" {}]
        DestinationBucket := bucket
        Distribution := some distribution
        DistributionPaths := ["/*"] } with
  | none => .panicked (.sdk "MyS3BucketDeployment") (some stack)
  | some (deployment, stack) =>
  match NewCfnOutput sdk stack "Mys3BucketDeployment" { Value := deployment.NodeId } with
  | none => .panicked (.sdk "Mys3BucketDeployment") (some stack)
  | some (_, stack) =>
  .returned stack

/-! ## `env` and `main` -/

/-- The process environment: the `NAME=value` entries in the order the
process was given them. -/
abbrev Environ := List (String × String)

/-- Modelled from the spec: `os.Getenv` belongs to the Go standard library;
it reads the variable, and a missing variable reads as the empty string
("fields become empty"). -/
def Getenv (environ : Environ) (key : String) : String :=
  match environ.lookup key with
  | some value => value
  | none => ""

/-- The function `env` (source lines 144-149). -/
def env (environ : Environ) : Environment :=
  { Account := some (Getenv environ "AWS_ACCOUNT")
    Region := some (Getenv environ "AWS_REGION") }

/-- A Go `interface{}` holding a context value: nil or a decoded JSON value
(a number is kept as the bits of its float64). -/
inductive Any where
  | nil
  | string (s : String)
  | bool (b : Bool)
  | float64 (bits : Nat)
  | slice (elements : List Any)
  | map (entries : List (String × Any))

/-- The context the tool passes in: key and value pairs. -/
abbrev Context := List (String × Any)

/-- The app: its context, the stacks created under it, and whether it has
been synthesized. -/
structure App where
  context : Context
  children : List Stack := []
  synthesized : Bool := false

/-- Path of the app, the root of the construct tree. -/
def App.path (_app : App) : Path := []

/-- The function `awscdk.NewApp`, called with nil props: the context is the
one the tool supplies. -/
def NewApp (context : Context) : App := { context := context }

/-- The method `app.Node().TryGetContext`: nil when the key is missing. -/
def TryGetContext (app : App) (key : String) : Any :=
  match app.context.lookup key with
  | some value => value
  | none => Any.nil

/-- The type assertion `x.(string)` in its one-result form, which panics
unless `x` holds a string; `none` stands for the panic. -/
def assertString : Any → Option String
  | .string s => some s
  | _ => none

/-- The method `app.Synth`; `none` when the SDK panics. -/
def Synth (sdk : Sdk) (app : App) : Option App :=
  if sdk.Synth app.children then some { app with synthesized := true } else none

/-- How `main` ends: it runs to its end, or it panics, leaving the app as
far as it was built. -/
inductive MainOutcome where
  | exited (app : App)
  | panicked (p : Panic) (app : App)

/-- The function `main` (source lines 130-142).  The arguments of the call
on line 133 are evaluated before `NewS3AngularStack` is entered. -/
def main (sdk : Sdk) (context : Context) (environ : Environ) : MainOutcome :=
  let app := NewApp context
  let e := env environ
  match assertString (TryGetContext app "subDomain") with
  | none => .panicked (.interfaceConversion "subDomain") app
  | some subDomain =>
    match assertString (TryGetContext app "domainName") with
    | none => .panicked (.interfaceConversion "domainName") app
    | some domainName =>
      match NewS3AngularStack sdk app.path "S3AngularStack"
          (some { StackProps := { Env := some e }
                  subDomain := subDomain
                  domainName := domainName }) with
      | .panicked p built =>
        .panicked p { app with children := app.children ++ built.toList }
      | .returned stack =>
        let app := { app with children := app.children ++ [stack] }
        match Synth sdk app with
        | none => .panicked (.sdk "Synth") app
        | some app => .exited app

/-! ## The SDK as it is known to behave -/

/-- The SDK that accepts every call. -/
def Sdk.accepting : Sdk :=
  { NewStack := fun _ _ _ => true
    construct := fun _ _ _ => true
    AddToResourcePolicy := fun _ _ _ => true
    Synth := fun _ => true }

/-- The stack-name check of the SDK, the regular expression
`/^[A-Za-z][A-Za-z0-9-]*$/`. -/
def validStackName (name : String) : Bool :=
  match name.data with
  | [] => false
  | c :: cs => c.isAlpha && cs.all fun c => c.isAlphanum || c == '-'

/-- A dot or dash next to a dot, or a dot next to a dash: the regular
expression `/\.-|-\.|\.\./` of the bucket-name check. -/
def hasDotDashPair : List Char → Bool
  | a :: b :: cs =>
    (a == '.' && b == '-') || (a == '-' && b == '.') || (a == '.' && b == '.') ||
      hasDotDashPair (b :: cs)
  | _ => false

/-- The pieces of a list of characters between its dots. -/
def splitDots : List Char → List (List Char)
  | [] => [[]]
  | c :: cs =>
    if c == '.' then [] :: splitDots cs
    else
      match splitDots cs with
      | g :: gs => (c :: g) :: gs
      | [] => [[c]]

/-- Four groups of one to three digits, separated by dots: the regular
expression `/^\d{1,3}\.\d{1,3}\.\d{1,3}\.\d{1,3}$/` of the bucket-name
check. -/
def looksLikeIpAddress (cs : List Char) : Bool :=
  (splitDots cs).length == 4 &&
    (splitDots cs).all fun g => 1 ≤ g.length && g.length ≤ 3 && g.all Char.isDigit

/-- The bucket-name check of the SDK: 3 to 63 characters, only lower-case
letters, digits, dots and dashes, a letter or digit at either end, no dot
next to a dot or dash, not the shape of an IP address.  An empty name is not
checked. -/
def validBucketName (name : String) : Bool :=
  name.data.isEmpty ||
    (3 ≤ name.data.length && name.data.length ≤ 63 &&
      (name.data.all fun c => c.isLower || c.isDigit || c == '.' || c == '-') &&
      (name.data.head?.any fun c => c.isLower || c.isDigit) &&
      (name.data.getLast?.any fun c => c.isLower || c.isDigit) &&
      !hasDotDashPair name.data &&
      !looksLikeIpAddress name.data)

/-- The stack has an account and a region of its own, which a context lookup
needs. -/
def hasAccountAndRegion (props : StackProps) : Bool :=
  match props.Env with
  | some e => e.Account.isSome && e.Region.isSome
  | none => false

/-- An account or region, when given, is made of letters, digits, dashes and
underscores, at least one: the environment check at synthesis. -/
def validEnvironmentPart : Option String → Bool
  | none => true
  | some part =>
    !part.data.isEmpty && part.data.all fun c => c.isAlphanum || c == '-' || c == '_'

/-- The SDK with the checks it is known to make on the calls of this program,
on a machine where the given directories exist.

* `NewStack`: a construct below the root needs a non-empty id.  For a stack
  directly under the app the id is the stack name, which is checked; deeper
  in the tree the SDK derives the name from the path with a hash, and that is
  left out here.
* Every constructor: the id is not taken yet in the stack.
* `HostedZone_FromLookup`: the stack has an account and a region.
* `NewBucket`: the bucket name, when given, passes the bucket-name check.
* `NewBucketDeployment`: the directory of every asset source exists.
* `Synth`: account and region of every stack pass the environment check. -/
def awsSdk (directories : List String) : Sdk :=
  { NewStack := fun scope id _ => id != "" && (scope != [] || validStackName id)
    construct := fun stack id c =>
      !(stack.children.any fun n => n.id == id) &&
        match c with
        | .HostedZone _ => hasAccountAndRegion stack.props
        | .Bucket props =>
          match props.BucketName with
          | some name => validBucketName name
          | none => true
        | .BucketDeployment props =>
          props.Sources.all fun
            | .Source_Asset path _ => directories.contains path
        | _ => true
    AddToResourcePolicy := fun _ _ _ => true
    Synth := fun children =>
      children.all fun stack =>
        match stack.props.Env with
        | some e => validEnvironmentPart e.Account && validEnvironmentPart e.Region
        | none => true }

/-- The props of the end-to-end scenario: "www", "example.com", and a
deployment target. -/
def scenarioProps : S3AngularStackProps :=
  { StackProps := { Env := some { Account := some "123456789012", Region := some "eu-west-1" } }
    subDomain := "www"
    domainName := "example.com" }

/-- The machine of the end-to-end scenario: the application bundle has been
built. -/
def scenarioSdk : Sdk := awsSdk ["./simple-angular-app/dist"]

/-! ## Reading the stack that was built -/

/-- The construct registered under the given id, if any. -/
def Stack.child (stack : Stack) (id : String) : Option Construct :=
  (stack.children.find? fun n => n.id == id).map Node.construct

/-- The construct a handle points at, when it is a child of this stack. -/
def Stack.resolve (stack : Stack) (r : Ref) : Option Construct :=
  if r.scope = stack.path then stack.child r.id else none

/-- The outputs of the stack: name and value, in registration order. -/
def Stack.outputs (stack : Stack) : List (String × Token) :=
  stack.children.filterMap fun n =>
    match n.construct with
    | .CfnOutput props => some (n.id, props.Value)
    | _ => none

/-- The buckets of the stack. -/
def Stack.buckets (stack : Stack) : List BucketProps :=
  stack.children.filterMap fun n =>
    match n.construct with
    | .Bucket props => some props
    | _ => none

/-- The certificates of the stack. -/
def Stack.certificates (stack : Stack) : List DnsValidatedCertificateProps :=
  stack.children.filterMap fun n =>
    match n.construct with
    | .DnsValidatedCertificate props => some props
    | _ => none

/-- The distributions of the stack. -/
def Stack.distributions (stack : Stack) : List CloudFrontWebDistributionProps :=
  stack.children.filterMap fun n =>
    match n.construct with
    | .CloudFrontWebDistribution props => some props
    | _ => none

/-- The address records of the stack. -/
def Stack.records (stack : Stack) : List ARecordProps :=
  stack.children.filterMap fun n =>
    match n.construct with
    | .ARecord props => some props
    | _ => none

/-- The handle of the child of the stack with the given id. -/
def Stack.ref (stack : Stack) (id : String) : Ref := { scope := stack.path, id := id }

/-! ## Shape of a domain name part -/

/-- The string has two dots in a row somewhere. -/
def HasDoubleDot (s : String) : Prop := ['.', '.'] <:+: s.data

/-- The string ends with a dot. -/
def EndsWithDot (s : String) : Prop := s.data.getLast? = some '.'

/-- The string begins with a dot. -/
def BeginsWithDot (s : String) : Prop := s.data.head? = some '.'

/-- A valid sub-domain or domain name in the sense of the contract: not
empty, no dot at either end, no two dots in a row. -/
def ValidPart (s : String) : Prop :=
  s ≠ "" ∧ ¬ BeginsWithDot s ∧ ¬ EndsWithDot s ∧ ¬ HasDoubleDot s

instance (s : String) : Decidable (HasDoubleDot s) :=
  inferInstanceAs (Decidable (['.', '.'] <:+: s.data))

instance (s : String) : Decidable (EndsWithDot s) :=
  inferInstanceAs (Decidable (s.data.getLast? = some '.'))

instance (s : String) : Decidable (BeginsWithDot s) :=
  inferInstanceAs (Decidable (s.data.head? = some '.'))

instance (s : String) : Decidable (ValidPart s) :=
  inferInstanceAs (Decidable (_ ∧ _))

/-! ## Lists of characters and dots -/

/-- Two dots in a row cannot arise from joining two dot-free-at-the-seam
lists with a single dot. -/
theorem not_double_dot_join (a b : List Char)
    (ha : ¬ ['.', '.'] <:+: a) (hb : ¬ ['.', '.'] <:+: b)
    (hae : a.getLast? ≠ some '.') (hbs : b.head? ≠ some '.') :
    ¬ ['.', '.'] <:+: a ++ '.' :: b := by
  rintro ⟨p, q, h⟩
  rw [List.append_assoc] at h
  rcases List.append_eq_append_iff.mp h with ⟨a', ha', h2⟩ | ⟨c', hc', h2⟩
  · -- the pair starts inside `a` or at its end
    match a', ha', h2 with
    | [], _, h2 =>
      simp at h2
      exact hbs (by simp [← h2])
    | [x], ha', h2 =>
      simp at h2
      obtain ⟨rfl, -⟩ := h2
      exact hae (by simp [ha'])
    | x :: y :: r, ha', h2 =>
      simp at h2
      obtain ⟨rfl, rfl, -⟩ := h2
      exact ha ⟨p, r, by simp [ha']⟩
  · -- the pair starts at the joining dot or inside `b`
    match c', hc', h2 with
    | [], _, h2 =>
      simp at h2
      exact hbs (by simp [h2])
    | x :: r, _, h2 =>
      simp at h2
      obtain ⟨-, h3⟩ := h2
      exact hb ⟨r, q, by simp [h3]⟩

/-- The last character of a joined list is the last character of its
non-empty right part. -/
theorem getLast?_join (a b : List Char) (hb : b ≠ []) :
    (a ++ '.' :: b).getLast? = b.getLast? := by
  have h : a ++ '.' :: b = (a ++ ['.']) ++ b := by simp
  rw [h, List.getLast?_append_of_ne_nil _ hb]

/-! ## What the SDK decides and what it does not -/

/-- The SDK only decides whether a call goes through: a stack that is
returned is the stack that is returned when every call is accepted. -/
theorem returned_accepting (sdk : Sdk) (scope : Path) (id : String)
    (props : S3AngularStackProps) (stack : Stack)
    (h : NewS3AngularStack sdk scope id (some props) = .returned stack) :
    NewS3AngularStack Sdk.accepting scope id (some props) = .returned stack := by
  unfold NewS3AngularStack at h
  simp only [] at h
  repeat' split at h
  all_goals first | exact Outcome.noConfusion h | skip
  simp only [NewStack, NewOriginAccessIdentity, HostedZone_FromLookup, NewCfnOutput, NewBucket,
    AddToResourcePolicy, NewDnsValidatedCertificate, NewCloudFrontWebDistribution, NewARecord,
    NewBucketDeployment, Stack.construct, Option.ite_none_right_eq_some, Option.some.injEq,
    Outcome.returned.injEq, Option.map_eq_some', Stack.add, Prod.mk.injEq, Prod.exists,
    if_true] at *
  casesm* _ ∧ _, ∃ _, _
  subst_vars
  rfl

/-- When the SDK accepts every call, the call returns. -/
theorem accepting_returns (scope : Path) (id : String) (props : S3AngularStackProps) :
    ∃ stack, NewS3AngularStack Sdk.accepting scope id (some props) = .returned stack :=
  ⟨_, rfl⟩

/-- In the end-to-end scenario every call is accepted. -/
theorem scenario_returns :
    NewS3AngularStack scenarioSdk [] "S3AngularStack" (some scenarioProps) =
      NewS3AngularStack Sdk.accepting [] "S3AngularStack" (some scenarioProps) := by
  rfl

/-- In the end-to-end scenario with the region "us-west-2" every call is
accepted. -/
theorem scenario_returns_other_region :
    NewS3AngularStack scenarioSdk [] "S3AngularStack"
        (some { scenarioProps with
          StackProps :=
            { scenarioProps.StackProps with
              Env := some { Account := some "123456789012", Region := some "us-west-2" } } }) =
      NewS3AngularStack Sdk.accepting [] "S3AngularStack"
        (some { scenarioProps with
          StackProps :=
            { scenarioProps.StackProps with
              Env := some { Account := some "123456789012", Region := some "us-west-2" } } }) := by
  rfl

/-! ## The composed domain -/

/-- C1: for a sub-domain and a domain name that are both non-empty, carry no
dot at either end and no two dots in a row, the domain composed on line 33 is
the sub-domain, one dot, the domain name; it has no two dots in a row and does
not end with a dot; and it is this domain that a returned stack carries as the
name of its certificate, as the alias of its distribution and as the name of
its address record. -/
theorem domain_composed_once (sdk : Sdk) (scope : Path) (id : String)
    (props : S3AngularStackProps)
    (hs : ValidPart props.subDomain) (hd : ValidPart props.domainName) :
    domain props = props.subDomain ++ "." ++ props.domainName ∧
      ¬ HasDoubleDot (domain props) ∧ ¬ EndsWithDot (domain props) ∧
      ∀ stack, NewS3AngularStack sdk scope id (some props) = .returned stack →
        stack.certificates.map (fun c => c.DomainName) = [some (domain props)] ∧
        stack.distributions.map
            (fun d => d.ViewerCertificate.map fun v => v.options.Aliases) =
          [some [domain props]] ∧
        stack.records.map (fun r => r.RecordName) = [some (domain props)] := by
  obtain ⟨-, -, hse, hsd⟩ := hs
  obtain ⟨hdn, hdb, hde, hdd⟩ := hd
  have hdata : (domain props).data = props.subDomain.data ++ '.' :: props.domainName.data := by
    simp [domain]
  have hne : props.domainName.data ≠ [] := by
    intro h
    apply hdn
    exact String.ext h
  refine ⟨rfl, ?_, ?_, ?_⟩
  · unfold HasDoubleDot
    rw [hdata]
    exact not_double_dot_join _ _ hsd hdd hse hdb
  · unfold EndsWithDot
    rw [hdata, getLast?_join _ _ hne]
    exact hde
  · intro stack h
    have hacc := returned_accepting sdk scope id props stack h
    obtain ⟨S, hS, hP⟩ :
        ∃ S, NewS3AngularStack Sdk.accepting scope id (some props) = .returned S ∧
          (S.certificates.map (fun c => c.DomainName) = [some (domain props)] ∧
            S.distributions.map
                (fun d => d.ViewerCertificate.map fun v => v.options.Aliases) =
              [some [domain props]] ∧
            S.records.map (fun r => r.RecordName) = [some (domain props)]) :=
      ⟨_, rfl, rfl, rfl, rfl⟩
    cases hacc.symm.trans hS
    exact hP

/-- Witness of C1: the end-to-end scenario, where the call returns. -/
theorem domain_composed_once_witness :
    ValidPart scenarioProps.subDomain ∧ ValidPart scenarioProps.domainName ∧
      domain scenarioProps = "www" ++ "." ++ "example.com" ∧
      ¬ HasDoubleDot (domain scenarioProps) ∧ ¬ EndsWithDot (domain scenarioProps) ∧
      ∃ stack,
        NewS3AngularStack scenarioSdk [] "S3AngularStack" (some scenarioProps) =
          .returned stack ∧
        stack.certificates.map (fun c => c.DomainName) = [some (domain scenarioProps)] ∧
        stack.distributions.map
            (fun d => d.ViewerCertificate.map fun v => v.options.Aliases) =
          [some [domain scenarioProps]] ∧
        stack.records.map (fun r => r.RecordName) = [some (domain scenarioProps)] :=
  have h := domain_composed_once scenarioSdk [] "S3AngularStack" scenarioProps
    (by decide) (by decide)
  have ⟨S, hS⟩ := accepting_returns [] "S3AngularStack" scenarioProps
  have hret := scenario_returns.trans hS
  ⟨by decide, by decide, h.1, h.2.1, h.2.2.1, S, hret, h.2.2.2 S hret⟩

/-- C2, as stated, fails: in the scenario with no environment in the stack
props the hosted-zone lookup is refused, the call panics, and the stack left
behind has no certificate, no distribution, no address record and no bucket
that could carry a name. -/
theorem composed_domain_unused_without_env :
    ∃ stack,
      NewS3AngularStack scenarioSdk [] "S3AngularStack"
          (some { subDomain := "www", domainName := "example.com" }) =
        .panicked (.sdk "MyHostedZone") (some stack) ∧
      stack.certificates = [] ∧ stack.distributions = [] ∧
      stack.records = [] ∧ stack.buckets = [] :=
  ⟨_, rfl, rfl, rfl, rfl, rfl⟩

/-- C2, amended: when the call returns for non-nil props, the one certificate
of the stack is requested for the composed domain, the one distribution has
the composed domain as the single alias of its viewer certificate, the one
address record is named by the composed domain, and the one bucket is named by
the domain name alone; with "www" and "example.com" these are
"www.example.com", ["www.example.com"], "www.example.com" and "example.com". -/
theorem composed_domain_used :
    (∀ (sdk : Sdk) (scope : Path) (id : String) (props : S3AngularStackProps) (stack : Stack),
      NewS3AngularStack sdk scope id (some props) = .returned stack →
        stack.certificates.map (fun c => c.DomainName) =
          [some (props.subDomain ++ "." ++ props.domainName)] ∧
        stack.distributions.map
            (fun d => d.ViewerCertificate.map fun v => v.options.Aliases) =
          [some [props.subDomain ++ "." ++ props.domainName]] ∧
        stack.records.map (fun r => r.RecordName) =
          [some (props.subDomain ++ "." ++ props.domainName)] ∧
        stack.buckets.map (fun b => b.BucketName) = [some props.domainName]) ∧
    (∀ (sdk : Sdk) (scope : Path) (id : String) (sprops : StackProps) (stack : Stack),
      NewS3AngularStack sdk scope id
          (some { StackProps := sprops, subDomain := "www", domainName := "example.com" }) =
        .returned stack →
        stack.certificates.map (fun c => c.DomainName) = [some "www.example.com"] ∧
        stack.distributions.map
            (fun d => d.ViewerCertificate.map fun v => v.options.Aliases) =
          [some ["www.example.com"]] ∧
        stack.records.map (fun r => r.RecordName) = [some "www.example.com"] ∧
        stack.buckets.map (fun b => b.BucketName) = [some "example.com"]) := by
  have general : ∀ (sdk : Sdk) (scope : Path) (id : String) (props : S3AngularStackProps)
      (stack : Stack), NewS3AngularStack sdk scope id (some props) = .returned stack →
        stack.certificates.map (fun c => c.DomainName) =
          [some (props.subDomain ++ "." ++ props.domainName)] ∧
        stack.distributions.map
            (fun d => d.ViewerCertificate.map fun v => v.options.Aliases) =
          [some [props.subDomain ++ "." ++ props.domainName]] ∧
        stack.records.map (fun r => r.RecordName) =
          [some (props.subDomain ++ "." ++ props.domainName)] ∧
        stack.buckets.map (fun b => b.BucketName) = [some props.domainName] := by
    intro sdk scope id props stack h
    have hacc := returned_accepting sdk scope id props stack h
    obtain ⟨S, hS, hP⟩ :
        ∃ S, NewS3AngularStack Sdk.accepting scope id (some props) = .returned S ∧
          (S.certificates.map (fun c => c.DomainName) =
              [some (props.subDomain ++ "." ++ props.domainName)] ∧
            S.distributions.map
                (fun d => d.ViewerCertificate.map fun v => v.options.Aliases) =
              [some [props.subDomain ++ "." ++ props.domainName]] ∧
            S.records.map (fun r => r.RecordName) =
              [some (props.subDomain ++ "." ++ props.domainName)] ∧
            S.buckets.map (fun b => b.BucketName) = [some props.domainName]) :=
      ⟨_, rfl, rfl, rfl, rfl, rfl⟩
    cases hacc.symm.trans hS
    exact hP
  refine ⟨general, fun sdk scope id sprops stack h => ?_⟩
  obtain ⟨hcert, halias, hrec, hbucket⟩ := general sdk scope id _ stack h
  have hwww : "www" ++ "." ++ "example.com" = "www.example.com" := by decide
  exact ⟨hwww ▸ hcert, hwww ▸ halias, hwww ▸ hrec, hbucket⟩

/-- Witness of C2: the end-to-end scenario, where the call returns. -/
theorem composed_domain_used_witness :
    ∃ stack,
      NewS3AngularStack scenarioSdk [] "S3AngularStack" (some scenarioProps) =
        .returned stack ∧
      stack.certificates.map (fun c => c.DomainName) = [some "www.example.com"] ∧
      stack.distributions.map
          (fun d => d.ViewerCertificate.map fun v => v.options.Aliases) =
        [some ["www.example.com"]] ∧
      stack.records.map (fun r => r.RecordName) = [some "www.example.com"] ∧
      stack.buckets.map (fun b => b.BucketName) = [some "example.com"] :=
  have ⟨S, hS⟩ := accepting_returns [] "S3AngularStack" scenarioProps
  have h := scenario_returns.trans hS
  ⟨S, h, composed_domain_used.2 scenarioSdk [] "S3AngularStack" scenarioProps.StackProps S h⟩

/-- C3, as stated, fails: with account and region set and the domain name
"b", which is refused as a bucket name, the call panics before the certificate
is requested. -/
theorem no_certificate_for_refused_bucket :
    ∃ stack,
      NewS3AngularStack scenarioSdk [] "S3AngularStack"
          (some { scenarioProps with domainName := "b" }) =
        .panicked (.sdk "MyS3Bucket") (some stack) ∧
      stack.certificates = [] :=
  ⟨_, rfl, rfl⟩

/-- C3, amended: when the call returns for non-nil props, the one certificate
of the stack is requested in "us-east-1"; and when the call also returns with
another environment (account and region) in the stack props, the certificate
is the same. -/
theorem certificate_region_fixed (sdk : Sdk) (scope : Path) (id : String)
    (props : S3AngularStackProps) (stack : Stack)
    (h : NewS3AngularStack sdk scope id (some props) = .returned stack) :
    stack.certificates.map (fun c => c.Region) = [some "us-east-1"] ∧
      ∀ (other : Option Environment) (stack' : Stack),
        NewS3AngularStack sdk scope id
            (some { props with StackProps := { props.StackProps with Env := other } }) =
          .returned stack' →
        stack'.certificates = stack.certificates := by
  have hacc := returned_accepting sdk scope id props stack h
  obtain ⟨S, hS, hP, hQ⟩ :
      ∃ S, NewS3AngularStack Sdk.accepting scope id (some props) = .returned S ∧
        S.certificates.map (fun c => c.Region) = [some "us-east-1"] ∧
        ∀ other : Option Environment, ∃ S',
          NewS3AngularStack Sdk.accepting scope id
              (some { props with StackProps := { props.StackProps with Env := other } }) =
            .returned S' ∧
          S'.certificates = S.certificates :=
    ⟨_, rfl, rfl, fun _ => ⟨_, rfl, rfl⟩⟩
  cases hacc.symm.trans hS
  refine ⟨hP, fun other stack' h' => ?_⟩
  have hacc' := returned_accepting sdk scope id _ stack' h'
  obtain ⟨S', hS', hE⟩ := hQ other
  cases hacc'.symm.trans hS'
  exact hE

/-- Witness of C3: the end-to-end scenario, and the same with the region
"us-west-2". -/
theorem certificate_region_fixed_witness :
    ∃ stack stack',
      NewS3AngularStack scenarioSdk [] "S3AngularStack" (some scenarioProps) =
        .returned stack ∧
      NewS3AngularStack scenarioSdk [] "S3AngularStack"
          (some { scenarioProps with
            StackProps :=
              { scenarioProps.StackProps with
                Env := some { Account := some "123456789012", Region := some "us-west-2" } } }) =
        .returned stack' ∧
      stack.certificates.map (fun c => c.Region) = [some "us-east-1"] ∧
      stack'.certificates = stack.certificates :=
  have ⟨S, hS⟩ := accepting_returns [] "S3AngularStack" scenarioProps
  have h := scenario_returns.trans hS
  have ⟨S', hS'⟩ :=
    accepting_returns [] "S3AngularStack"
      { scenarioProps with
        StackProps :=
          { scenarioProps.StackProps with
            Env := some { Account := some "123456789012", Region := some "us-west-2" } } }
  have h' := scenario_returns_other_region.trans hS'
  ⟨S, S', h, h',
    (certificate_region_fixed scenarioSdk [] "S3AngularStack" scenarioProps S h).1,
    (certificate_region_fixed scenarioSdk [] "S3AngularStack" scenarioProps S h).2
      (some { Account := some "123456789012", Region := some "us-west-2" }) S' h'⟩

/-- C4, as stated, fails: with the domain name "Example.COM", which is
refused as a bucket name, the call panics before the distribution is built. -/
theorem no_distribution_for_refused_bucket :
    ∃ stack,
      NewS3AngularStack scenarioSdk [] "S3AngularStack"
          (some { scenarioProps with domainName := "Example.COM" }) =
        .panicked (.sdk "MyS3Bucket") (some stack) ∧
      stack.distributions = [] :=
  ⟨_, rfl, rfl⟩

/-- C4, amended: when the call returns for non-nil props, the stack has one
distribution, with one origin configuration, with one behaviour; that
behaviour is the default behaviour, compresses, and allows exactly GET, HEAD
and OPTIONS. -/
theorem single_default_behaviour (sdk : Sdk) (scope : Path) (id : String)
    (props : S3AngularStackProps) (stack : Stack)
    (h : NewS3AngularStack sdk scope id (some props) = .returned stack) :
    ∃ distribution origin behaviour,
      stack.distributions = [distribution] ∧
      distribution.OriginConfigs = [origin] ∧
      origin.Behaviors = [behaviour] ∧
      behaviour.IsDefaultBehavior = some true ∧
      behaviour.Compress = some true ∧
      behaviour.AllowedMethods = some .GET_HEAD_OPTIONS ∧
      behaviour.AllowedMethods.map CloudFrontAllowedMethods.methods =
        some [.GET, .HEAD, .OPTIONS] := by
  have hacc := returned_accepting sdk scope id props stack h
  obtain ⟨S, hS, hP⟩ :
      ∃ S, NewS3AngularStack Sdk.accepting scope id (some props) = .returned S ∧
        ∃ distribution origin behaviour,
          S.distributions = [distribution] ∧
          distribution.OriginConfigs = [origin] ∧
          origin.Behaviors = [behaviour] ∧
          behaviour.IsDefaultBehavior = some true ∧
          behaviour.Compress = some true ∧
          behaviour.AllowedMethods = some .GET_HEAD_OPTIONS ∧
          behaviour.AllowedMethods.map CloudFrontAllowedMethods.methods =
            some [.GET, .HEAD, .OPTIONS] :=
    ⟨_, rfl, _, _, _, rfl, rfl, rfl, rfl, rfl, rfl, rfl⟩
  cases hacc.symm.trans hS
  exact hP

/-- Witness of C4: the end-to-end scenario, where the call returns. -/
theorem single_default_behaviour_witness :
    ∃ stack distribution origin behaviour,
      NewS3AngularStack scenarioSdk [] "S3AngularStack" (some scenarioProps) =
        .returned stack ∧
      stack.distributions = [distribution] ∧
      distribution.OriginConfigs = [origin] ∧
      origin.Behaviors = [behaviour] ∧
      behaviour.IsDefaultBehavior = some true ∧
      behaviour.Compress = some true ∧
      behaviour.AllowedMethods = some .GET_HEAD_OPTIONS ∧
      behaviour.AllowedMethods.map CloudFrontAllowedMethods.methods =
        some [.GET, .HEAD, .OPTIONS] :=
  have ⟨S, hS⟩ := accepting_returns [] "S3AngularStack" scenarioProps
  have h := scenario_returns.trans hS
  have ⟨d, o, b, hb⟩ :=
    single_default_behaviour scenarioSdk [] "S3AngularStack" scenarioProps S h
  ⟨S, d, o, b, h, hb⟩

/-- C5, as stated, fails: in the scenario with no environment in the stack
props the call panics in the hosted-zone lookup; the Origin Access Identity
exists by then, but no bucket is created and no statement is added to any
resource policy. -/
theorem no_statement_without_env :
    ∃ stack,
      NewS3AngularStack scenarioSdk [] "S3AngularStack"
          (some { subDomain := "www", domainName := "example.com" }) =
        .panicked (.sdk "MyHostedZone") (some stack) ∧
      stack.child "MyOriginAccessIdentity" =
        some (.OriginAccessIdentity { Comment := some "OAI for S3AngularStack" }) ∧
      stack.buckets = [] ∧ stack.resourcePolicy = [] :=
  ⟨_, rfl, rfl, rfl, rfl⟩

/-- C5, amended: when the call returns for non-nil props, the policy of the
bucket created in this call holds the public-read statement that the SDK adds
for the bucket, followed by the one statement this program adds; the single
action of the latter is "s3:GetObject", its single resource is all objects
("*") of that bucket, and its single principal is the canonical user of the
Origin Access Identity created in this call, the same identity that the
distribution's S3 origin is given. -/
theorem policy_principal_is_own_identity (sdk : Sdk) (scope : Path) (id : String)
    (props : S3AngularStackProps) (stack : Stack)
    (h : NewS3AngularStack sdk scope id (some props) = .returned stack) :
    ∃ bucket identity statement,
      bucket = stack.ref "MyS3Bucket" ∧
      identity = stack.ref "MyOriginAccessIdentity" ∧
      stack.resolve bucket =
        some (.Bucket
          { BucketName := some props.domainName
            WebsiteIndexDocument := some "index.html"
            WebsiteErrorDocument := some "error.html"
            PublicReadAccess := some true }) ∧
      stack.resolve identity =
        some (.OriginAccessIdentity { Comment := some ("OAI for " ++ id) }) ∧
      stack.resourcePolicy = [(bucket, publicReadStatement bucket), (bucket, statement)] ∧
      statement.Actions = ["s3:GetObject"] ∧
      statement.Resources = [Token.ArnForObjects bucket "*"] ∧
      statement.Principals =
        [.NewCanonicalUserPrincipal
          (Token.CloudFrontOriginAccessIdentityS3CanonicalUserId identity)] ∧
      stack.distributions.map
          (fun d => d.OriginConfigs.map fun o => o.S3OriginSource) =
        [[some { S3BucketSource := bucket, OriginAccessIdentity := some identity }]] := by
  have hacc := returned_accepting sdk scope id props stack h
  obtain ⟨S, hS, hP⟩ :
      ∃ S, NewS3AngularStack Sdk.accepting scope id (some props) = .returned S ∧
        ∃ bucket identity statement,
          bucket = S.ref "MyS3Bucket" ∧
          identity = S.ref "MyOriginAccessIdentity" ∧
          S.resolve bucket =
            some (.Bucket
              { BucketName := some props.domainName
                WebsiteIndexDocument := some "index.html"
                WebsiteErrorDocument := some "error.html"
                PublicReadAccess := some true }) ∧
          S.resolve identity =
            some (.OriginAccessIdentity { Comment := some ("OAI for " ++ id) }) ∧
          S.resourcePolicy = [(bucket, publicReadStatement bucket), (bucket, statement)] ∧
          statement.Actions = ["s3:GetObject"] ∧
          statement.Resources = [Token.ArnForObjects bucket "*"] ∧
          statement.Principals =
            [.NewCanonicalUserPrincipal
              (Token.CloudFrontOriginAccessIdentityS3CanonicalUserId identity)] ∧
          S.distributions.map
              (fun d => d.OriginConfigs.map fun o => o.S3OriginSource) =
            [[some { S3BucketSource := bucket, OriginAccessIdentity := some identity }]] := by
    refine ⟨_, rfl, _, _, _, rfl, rfl, ?_, ?_, rfl, rfl, rfl, rfl, rfl⟩ <;>
      simp [Stack.resolve, Stack.ref, Stack.child, Stack.path, Stack.add, Stack.construct,
      Sdk.accepting, NewStack, NewOriginAccessIdentity, HostedZone_FromLookup, NewCfnOutput,
      NewBucket, AddToResourcePolicy, NewDnsValidatedCertificate, NewCloudFrontWebDistribution,
      NewARecord, NewBucketDeployment]
  cases hacc.symm.trans hS
  exact hP

/-- Witness of C5: the end-to-end scenario, where the call returns. -/
theorem policy_principal_is_own_identity_witness :
    ∃ stack statement,
      NewS3AngularStack scenarioSdk [] "S3AngularStack" (some scenarioProps) =
        .returned stack ∧
      stack.resourcePolicy =
        [(stack.ref "MyS3Bucket", publicReadStatement (stack.ref "MyS3Bucket")),
         (stack.ref "MyS3Bucket", statement)] ∧
      statement.Principals =
        [.NewCanonicalUserPrincipal
          (Token.CloudFrontOriginAccessIdentityS3CanonicalUserId
            (stack.ref "MyOriginAccessIdentity"))] :=
  have ⟨S, hS⟩ := accepting_returns [] "S3AngularStack" scenarioProps
  have h := scenario_returns.trans hS
  have ⟨_, _, statement, hb, hi, _, _, hpol, _, _, hprin, _⟩ :=
    policy_principal_is_own_identity scenarioSdk [] "S3AngularStack" scenarioProps S h
  ⟨S, statement, h, hb ▸ hpol, hi ▸ hprin⟩

/-- C6, as stated, fails: in the scenario on a machine without the built
application bundle the deployment is refused; the call panics after it has
registered four outputs, and the output Mys3BucketDeployment is missing. -/
theorem four_outputs_without_bundle :
    ∃ stack,
      NewS3AngularStack (awsSdk []) [] "S3AngularStack" (some scenarioProps) =
        .panicked (.sdk "MyS3BucketDeployment") (some stack) ∧
      stack.outputs.map Prod.fst =
        ["HostedZoneId", "MyBucketName", "Certificate", "CloudFrontWebDistributionId"] :=
  ⟨_, rfl, rfl⟩

/-- C6, amended: when the call returns for non-nil props, the outputs of the
stack are, in order, HostedZoneId, MyBucketName, Certificate,
CloudFrontWebDistributionId and Mys3BucketDeployment, carrying the id of the
looked-up hosted zone, the domain name of the bucket, the ARN of the
certificate, the id of the distribution and the node id of the deployment,
each of them a construct of this stack. -/
theorem outputs_named_and_valued (sdk : Sdk) (scope : Path) (id : String)
    (props : S3AngularStackProps) (stack : Stack)
    (h : NewS3AngularStack sdk scope id (some props) = .returned stack) :
    stack.outputs =
        [("HostedZoneId", Token.HostedZoneId (stack.ref "MyHostedZone")),
         ("MyBucketName", Token.BucketDomainName (stack.ref "MyS3Bucket")),
         ("Certificate", Token.CertificateArn (stack.ref "MySiteCertificate")),
         ("CloudFrontWebDistributionId",
            Token.DistributionId (stack.ref "MyCloudFrontDistribution")),
         ("Mys3BucketDeployment", (stack.ref "MyS3BucketDeployment").NodeId)] ∧
      (stack.ref "MyS3BucketDeployment").NodeId = Token.literal "MyS3BucketDeployment" ∧
      stack.resolve (stack.ref "MyHostedZone") =
        some (.HostedZone { DomainName := some props.domainName }) ∧
      (∃ p, stack.resolve (stack.ref "MyS3Bucket") = some (.Bucket p)) ∧
      (∃ p, stack.resolve (stack.ref "MySiteCertificate") =
        some (.DnsValidatedCertificate p)) ∧
      (∃ p, stack.resolve (stack.ref "MyCloudFrontDistribution") =
        some (.CloudFrontWebDistribution p)) ∧
      (∃ p, stack.resolve (stack.ref "MyS3BucketDeployment") =
        some (.BucketDeployment p)) := by
  have hacc := returned_accepting sdk scope id props stack h
  obtain ⟨S, hS, hP⟩ :
      ∃ S, NewS3AngularStack Sdk.accepting scope id (some props) = .returned S ∧
        (S.outputs =
            [("HostedZoneId", Token.HostedZoneId (S.ref "MyHostedZone")),
             ("MyBucketName", Token.BucketDomainName (S.ref "MyS3Bucket")),
             ("Certificate", Token.CertificateArn (S.ref "MySiteCertificate")),
             ("CloudFrontWebDistributionId",
                Token.DistributionId (S.ref "MyCloudFrontDistribution")),
             ("Mys3BucketDeployment", (S.ref "MyS3BucketDeployment").NodeId)] ∧
          (S.ref "MyS3BucketDeployment").NodeId = Token.literal "MyS3BucketDeployment" ∧
          S.resolve (S.ref "MyHostedZone") =
            some (.HostedZone { DomainName := some props.domainName }) ∧
          (∃ p, S.resolve (S.ref "MyS3Bucket") = some (.Bucket p)) ∧
          (∃ p, S.resolve (S.ref "MySiteCertificate") =
            some (.DnsValidatedCertificate p)) ∧
          (∃ p, S.resolve (S.ref "MyCloudFrontDistribution") =
            some (.CloudFrontWebDistribution p)) ∧
          (∃ p, S.resolve (S.ref "MyS3BucketDeployment") =
            some (.BucketDeployment p))) := by
    refine ⟨_, rfl, rfl, rfl, ?_, ?_, ?_, ?_, ?_⟩ <;>
      simp [Stack.resolve, Stack.ref, Stack.child, Stack.path, Stack.add, Stack.construct,
      Sdk.accepting, NewStack, NewOriginAccessIdentity, HostedZone_FromLookup, NewCfnOutput,
      NewBucket, AddToResourcePolicy, NewDnsValidatedCertificate, NewCloudFrontWebDistribution,
      NewARecord, NewBucketDeployment]
  cases hacc.symm.trans hS
  exact hP

/-- Witness of C6: the end-to-end scenario, where the call returns. -/
theorem outputs_named_and_valued_witness :
    ∃ stack,
      NewS3AngularStack scenarioSdk [] "S3AngularStack" (some scenarioProps) =
        .returned stack ∧
      stack.outputs =
        [("HostedZoneId", Token.HostedZoneId (stack.ref "MyHostedZone")),
         ("MyBucketName", Token.BucketDomainName (stack.ref "MyS3Bucket")),
         ("Certificate", Token.CertificateArn (stack.ref "MySiteCertificate")),
         ("CloudFrontWebDistributionId",
            Token.DistributionId (stack.ref "MyCloudFrontDistribution")),
         ("Mys3BucketDeployment", (stack.ref "MyS3BucketDeployment").NodeId)] :=
  have ⟨S, hS⟩ := accepting_returns [] "S3AngularStack" scenarioProps
  have h := scenario_returns.trans hS
  ⟨S, h, (outputs_named_and_valued scenarioSdk [] "S3AngularStack" scenarioProps S h).1⟩

/-- C7, as stated, fails: in the end-to-end scenario the returned stack has
five outputs, not six; and in the scenario with no environment in the stack
props the call panics with no output registered at all. -/
theorem six_outputs_refuted :
    (∃ stack,
      NewS3AngularStack scenarioSdk [] "S3AngularStack" (some scenarioProps) =
        .returned stack ∧
      stack.outputs.length = 5 ∧ stack.outputs.length ≠ 6) ∧
    (∃ stack,
      NewS3AngularStack scenarioSdk [] "S3AngularStack"
          (some { subDomain := "www", domainName := "example.com" }) =
        .panicked (.sdk "MyHostedZone") (some stack) ∧
      stack.outputs = []) :=
  ⟨(accepting_returns [] "S3AngularStack" scenarioProps).elim fun S hS =>
      have hlen : S.outputs.length = 5 :=
        have ⟨S', hS', hlen'⟩ :
            ∃ S', NewS3AngularStack Sdk.accepting [] "S3AngularStack" (some scenarioProps) =
              .returned S' ∧ S'.outputs.length = 5 :=
          ⟨_, rfl, rfl⟩
        Outcome.returned.inj (hS.symm.trans hS') ▸ hlen'
      ⟨S, scenario_returns.trans hS, hlen, by rw [hlen]; decide⟩,
    ⟨_, rfl, rfl⟩⟩

/-- C7, amended: when the call returns, it has registered five named output
values: HostedZoneId, MyBucketName, Certificate, CloudFrontWebDistributionId
and Mys3BucketDeployment. -/
theorem five_outputs (sdk : Sdk) (scope : Path) (id : String) (props : S3AngularStackProps)
    (stack : Stack) (h : NewS3AngularStack sdk scope id (some props) = .returned stack) :
    stack.outputs.length = 5 ∧
      stack.outputs.map Prod.fst =
        ["HostedZoneId", "MyBucketName", "Certificate", "CloudFrontWebDistributionId",
          "Mys3BucketDeployment"] := by
  have hacc := returned_accepting sdk scope id props stack h
  obtain ⟨S, hS, hP⟩ :
      ∃ S, NewS3AngularStack Sdk.accepting scope id (some props) = .returned S ∧
        (S.outputs.length = 5 ∧
          S.outputs.map Prod.fst =
            ["HostedZoneId", "MyBucketName", "Certificate", "CloudFrontWebDistributionId",
              "Mys3BucketDeployment"]) :=
    ⟨_, rfl, rfl, rfl⟩
  cases hacc.symm.trans hS
  exact hP

/-- Witness of C7: the end-to-end scenario, where the call returns. -/
theorem five_outputs_witness :
    ∃ stack,
      NewS3AngularStack scenarioSdk [] "S3AngularStack" (some scenarioProps) =
        .returned stack ∧
      stack.outputs.length = 5 ∧
      stack.outputs.map Prod.fst =
        ["HostedZoneId", "MyBucketName", "Certificate", "CloudFrontWebDistributionId",
          "Mys3BucketDeployment"] :=
  have ⟨S, hS⟩ := accepting_returns [] "S3AngularStack" scenarioProps
  have h := scenario_returns.trans hS
  ⟨S, h, five_outputs scenarioSdk [] "S3AngularStack" scenarioProps S h⟩

/-! ## `main` and `env` -/

/-- The type assertion fails on every value that is not a string. -/
theorem assertString_eq_none (x : Any) (h : ∀ s, x ≠ Any.string s) :
    assertString x = none := by
  cases x with
  | string s => exact absurd rfl (h s)
  | nil => rfl
  | bool b => rfl
  | float64 bits => rfl
  | slice elements => rfl
  | map entries => rfl

/-- C8: when the context value of subDomain or of domainName is not a string
(a missing value reads as nil, which is not a string), main panics, and the
app it leaves has no stack under it, hence no resource either, and has not
been synthesized. -/
theorem main_fails_before_stack (sdk : Sdk) (context : Context) (environ : Environ)
    (h : (∀ s, TryGetContext (NewApp context) "subDomain" ≠ Any.string s) ∨
      (∀ s, TryGetContext (NewApp context) "domainName" ≠ Any.string s)) :
    ∃ p app,
      main sdk context environ = .panicked p app ∧
      app.children = [] ∧ app.synthesized = false := by
  rcases h with h | h
  · have hsub := assertString_eq_none _ h
    exact ⟨.interfaceConversion "subDomain", NewApp context, by simp [main, hsub], rfl, rfl⟩
  · have hdom := assertString_eq_none _ h
    cases hsub : assertString (TryGetContext (NewApp context) "subDomain") with
    | none =>
      exact ⟨.interfaceConversion "subDomain", NewApp context, by simp [main, hsub], rfl, rfl⟩
    | some sub =>
      exact ⟨.interfaceConversion "domainName", NewApp context, by simp [main, hsub, hdom],
        rfl, rfl⟩

/-- Witness of C8: a context with a sub-domain but no domain name. -/
theorem main_fails_before_stack_witness :
    ∃ p app,
      main scenarioSdk [("subDomain", Any.string "www")] [("AWS_REGION", "eu-west-1")] =
        .panicked p app ∧
      app.children = [] ∧ app.synthesized = false :=
  main_fails_before_stack scenarioSdk [("subDomain", Any.string "www")]
    [("AWS_REGION", "eu-west-1")]
    (Or.inr (fun s h => by simp [TryGetContext, NewApp, List.lookup] at h))

/-- With both context values strings, a stack returned by `NewS3AngularStack`
and a synthesis the SDK accepts, main runs to its end: the stack is under the
app and the app has been synthesized. -/
theorem main_exits (sdk : Sdk) (context : Context) (environ : Environ) (sub dom : String)
    (stack : Stack)
    (hsub : TryGetContext (NewApp context) "subDomain" = Any.string sub)
    (hdom : TryGetContext (NewApp context) "domainName" = Any.string dom)
    (hstack : NewS3AngularStack sdk [] "S3AngularStack"
        (some { StackProps := { Env := some (env environ) }
                subDomain := sub
                domainName := dom }) =
      .returned stack)
    (hsynth : sdk.Synth [stack] = true) :
    main sdk context environ =
      .exited { context := context, children := [stack], synthesized := true } := by
  simp only [main, hsub, hdom, assertString, App.path, hstack, Synth]
  simp [NewApp, hsynth]

/-- C9: for every process environment env yields a descriptor whose Account
and Region are the values of AWS_ACCOUNT and AWS_REGION, and each is the empty
string when the variable is missing. -/
theorem env_never_fails (environ : Environ) :
    (∃ e, env environ = e ∧
      e.Account = some (Getenv environ "AWS_ACCOUNT") ∧
      e.Region = some (Getenv environ "AWS_REGION")) ∧
    (∀ value, environ.lookup "AWS_ACCOUNT" = some value →
      (env environ).Account = some value) ∧
    (∀ value, environ.lookup "AWS_REGION" = some value →
      (env environ).Region = some value) ∧
    (environ.lookup "AWS_ACCOUNT" = none → (env environ).Account = some "") ∧
    (environ.lookup "AWS_REGION" = none → (env environ).Region = some "") := by
  refine ⟨⟨_, rfl, rfl, rfl⟩, ?_, ?_, ?_, ?_⟩
  · intro value h
    simp [env, Getenv, h]
  · intro value h
    simp [env, Getenv, h]
  · intro h
    simp [env, Getenv, h]
  · intro h
    simp [env, Getenv, h]

/-- Witness of C9: an environment with the account set and the region
missing. -/
theorem env_never_fails_witness :
    (env [("AWS_ACCOUNT", "123456789012")]).Account = some "123456789012" ∧
      (env [("AWS_ACCOUNT", "123456789012")]).Region = some "" :=
  ⟨(env_never_fails [("AWS_ACCOUNT", "123456789012")]).2.1 "123456789012" (by decide),
    (env_never_fails [("AWS_ACCOUNT", "123456789012")]).2.2.2.2 (by decide)⟩

/-- C10, as stated, fails: under the app, with the empty id and nil props,
`awscdk.NewStack` itself panics; no stack is created and line 33 is not
reached. -/
theorem nil_props_empty_id :
    NewS3AngularStack scenarioSdk [] "" none = .panicked (.sdk "") none ∧
      NewS3AngularStack scenarioSdk [] "" none ≠
        .panicked .nilPointerDereference
          (some { scope := [], id := "", props := { Env := none },
                  children := [], resourcePolicy := [] }) := by
  decide

/-- C10, amended: for every scope and id with which `awscdk.NewStack` accepts
zero-valued stack props, the call with nil props does not return: it panics
on the nil dereference, leaving a stack that was created with zero-valued
stack props and has no child (no identity, zone, bucket, certificate,
distribution, record, deployment or output) and no policy statement. -/
theorem nil_props_panic (sdk : Sdk) (scope : Path) (id : String)
    (haccepted : sdk.NewStack scope id { Env := none } = true) :
    NewS3AngularStack sdk scope id none =
        .panicked .nilPointerDereference
          (some { scope := scope, id := id, props := { Env := none },
                  children := [], resourcePolicy := [] }) ∧
      (∀ stack, NewS3AngularStack sdk scope id none ≠ .returned stack) ∧
      ∃ p stack,
        NewS3AngularStack sdk scope id none = .panicked p (some stack) ∧
        stack.children = [] ∧ stack.outputs = [] ∧ stack.resourcePolicy = [] := by
  have hrun : NewS3AngularStack sdk scope id none =
      .panicked .nilPointerDereference
        (some { scope := scope, id := id, props := { Env := none },
                children := [], resourcePolicy := [] }) := by
    simp [NewS3AngularStack, NewStack, haccepted]
  refine ⟨hrun, fun stack h => ?_, _, _, hrun, rfl, rfl, rfl⟩
  rw [hrun] at h
  exact Outcome.noConfusion h

/-- Witness of C10: the stack id of `main`, under the app. -/
theorem nil_props_panic_witness :
    scenarioSdk.NewStack [] "S3AngularStack" { Env := none } = true ∧
      NewS3AngularStack scenarioSdk [] "S3AngularStack" none =
        .panicked .nilPointerDereference
          (some { scope := [], id := "S3AngularStack", props := { Env := none },
                  children := [], resourcePolicy := [] }) :=
  ⟨by decide, (nil_props_panic scenarioSdk [] "S3AngularStack" (by decide)).1⟩

end S3Angular
